import Mathlib

/-!
Verification development for the TotalChat conversation session and
relationship engine.  The definitions below are a shallow embedding of the
frontend hooks `useChat` (frontend/src/hooks/useChat.js), the
`GroupConversation` component message handler
(frontend/src/components/GroupConversation.jsx), the memory hook
`useCharacterMemory` (frontend/src/hooks/useCharacterMemory.js) and the
`memoryAPI` service layer (frontend/src/services/api.js).  JavaScript
numbers used only for arithmetic are modelled as exact rationals;
JavaScript `undefined`/`null` string fields are modelled as `Option String`;
a JavaScript object used as a string-keyed boolean map is modelled as an
association list whose update mirrors object-spread semantics.
-/

set_option autoImplicit false

namespace TotalChat

/-! ## JavaScript string primitives -/

/-- Characters removed by the JavaScript `String.prototype.trim` (the
ECMAScript WhiteSpace and LineTerminator sets). -/
def jsWhitespace (c : Char) : Bool :=
  c = ' ' || c = '\t' || c = '\n' || c = '\r' ||
  c = '\u000B' || c = '\u000C' || c = '\u00A0' || c = '\uFEFF' ||
  c = '\u1680' || c = '\u2000' || c = '\u2001' || c = '\u2002' ||
  c = '\u2003' || c = '\u2004' || c = '\u2005' || c = '\u2006' ||
  c = '\u2007' || c = '\u2008' || c = '\u2009' || c = '\u200A' ||
  c = '\u2028' || c = '\u2029' || c = '\u202F' || c = '\u205F' ||
  c = '\u3000'

/-- JavaScript `s.trim()`: drop whitespace from both ends. -/
def jsTrim (s : String) : String :=
  String.mk (((s.toList.dropWhile jsWhitespace).reverse.dropWhile jsWhitespace).reverse)

/-- Truthiness of a JavaScript string-or-undefined value: `undefined`,
`null` and the empty string are falsy. -/
def truthyOptStr : Option String → Bool
  | none => false
  | some s => !(s == "")

/-- JavaScript `a || b` for a string-or-undefined `a` with string fallback
`b` (used for `data.timestamp || new Date().toISOString()`). -/
def jsOrString (a : Option String) (b : String) : String :=
  match a with
  | some s => if s == "" then b else s
  | none => b

/-- JavaScript computed object key `[x]` for a string-or-undefined `x`:
an `undefined` key is coerced to the string `"undefined"`. -/
def jsKey : Option String → String
  | some s => s
  | none => "undefined"

/-! ## JavaScript object used as a persona-id → bool map

`setIsTyping(prev => (\x7b ...prev, [k]: v \x7d))` keeps the position of an
existing key `k` and overrides its value, and appends a fresh key at the
end; lookup of an absent key yields `undefined`, which is falsy. -/

abbrev TypingMap := List (String × Bool)

/-- Object-spread update `\x7b ...m, [k]: v \x7d`. -/
def setFlag : TypingMap → String → Bool → TypingMap
  | [], k, v => [(k, v)]
  | (k', v') :: rest, k, v =>
    if k' == k then (k', v) :: rest else (k', v') :: setFlag rest k v

/-- Property lookup `m[k]` read as a boolean (absent key is falsy). -/
def getFlag (m : TypingMap) (k : String) : Bool :=
  match m.find? (fun p => p.1 == k) with
  | some p => p.2
  | none => false

/-! ## Data model of the chat session (useChat.js) -/

/-- A persona as supplied to the `useChat` hook (`characters` array). -/
structure Character where
  id : String
  name : String
  title : String
  images : List String
  category : String
  model : String
deriving DecidableEq, Repr

/-- One entry of the `messages` state.  `role` is the literal string role
(`"user"` or `"assistant"`); `characterId` is absent on user messages. -/
structure Message where
  id : Nat
  role : String
  characterId : Option String
  content : Option String
  timestamp : String
deriving DecidableEq, Repr

/-- One persona record inside an outbound payload (`characters.map` in
`sendMessage`). -/
structure CharPayload where
  id : String
  name : String
  title : String
  images : List String
  category : String
  model : String
deriving DecidableEq, Repr

/-- One history record inside an outbound payload
(`messages.map` in `sendMessage`). -/
structure HistEntry where
  role : String
  characterId : Option String
  content : Option String
  timestamp : String
deriving DecidableEq, Repr

/-- The outbound request payload built by `sendMessage`. -/
structure Payload where
  message : String
  characters : List CharPayload
  conversation_history : List HistEntry
deriving DecidableEq, Repr

/-- The payload constructed in `sendMessage` from the trimmed text, the
configured personas and the message log closed over by the callback. -/
def mkPayload (text : String) (chars : List Character) (messages : List Message) : Payload :=
  { message := text
    characters := chars.map (fun c =>
      { id := c.id, name := c.name, title := c.title, images := c.images
        category := c.category, model := c.model })
    conversation_history := messages.map (fun m =>
      { role := m.role, characterId := m.characterId
        content := m.content, timestamp := m.timestamp }) }

/-- WebSocket `readyState` values. -/
inductive ReadyState
  | connecting
  | opened
  | closing
  | closed
deriving DecidableEq, Repr

/-- The state owned by one `useChat` instance: the `messages` and
`isTyping` React state, the `connected` flag, the outbound queue
(`queueRef`), the socket reference with its ready state (`wsRef`,
`none` when no socket exists), and the payloads handed to `ws.send`
(in transmission order). -/
structure ChatState where
  messages : List Message
  isTyping : TypingMap
  connected : Bool
  queue : List Payload
  ws : Option ReadyState
  transmitted : List Payload
deriving DecidableEq, Repr

/-- Outcome of one `sendMessage` call, as observable at the call site:
blank input returns early, otherwise the payload is either queued for
`onopen` to flush or handed to `ws.send` immediately. -/
inductive SendOutcome
  | noop
  | queued
  | sent
deriving DecidableEq, Repr

/-- `deriveCurrentSpeaker`: the `currentSpeaker` memo of `useChat.js`
(lines 26 to 34).  The backward `for` loop over `messages` is rendered as
`find?` on the reversed list; `characters.find(...) || null` and
`characters[0] || null` are rendered with `Option`. -/
def isPersonaMsg (m : Message) : Bool :=
  m.role != "user" && truthyOptStr m.characterId

/-- `characters.find(c => c.id === cid) || null`. -/
def findChar (chars : List Character) (cid : String) : Option Character :=
  chars.find? (fun c => c.id == cid)

/-- The `currentSpeaker` derivation. -/
def currentSpeaker (messages : List Message) (chars : List Character) : Option Character :=
  match messages.reverse.find? isPersonaMsg with
  | some m =>
    match m.characterId with
    | some cid => findChar chars cid
    | none => none
  | none => chars.head?

/-! ## Connection manager operations (useChat.js)

The `setTimeout` calls in `sendMessage` schedule a later typing-indicator
reset; they are separate timer tasks, never touch the message log, the
queue or the socket, and are outside the synchronous effect modelled
here.  `ws.send` is modelled as appending to `transmitted`; the transport
failure branch of the `try` around it only schedules such a timer. -/

/-- `sendMessage` (useChat.js lines 90 to 139).  `content` is the raw
argument (`undefined` allowed), `now` models `Date.now()` and `nowIso`
models `new Date().toISOString()` at the instant of the call. -/
def sendMessage (chars : List Character) (st : ChatState)
    (content : Option String) (now : Nat) (nowIso : String) :
    ChatState × SendOutcome :=
  let text := jsTrim (content.getD "")
  if text = "" then (st, .noop)
  else
    let userMessage : Message :=
      { id := now, role := "user", characterId := none
        content := some text, timestamp := nowIso }
    let payload := mkPayload text chars st.messages
    let st1 := { st with
      messages := st.messages ++ [userMessage]
      isTyping := chars.foldl (fun (m : TypingMap) (c : Character) => setFlag m c.id true) [] }
    if st.ws ≠ some ReadyState.opened then
      ({ st1 with queue := st1.queue ++ [payload] }, .queued)
    else
      ({ st1 with transmitted := st1.transmitted ++ [payload] }, .sent)

/-- The `while (q.length) \x7b q.shift(); ws.send(...) \x7d` flush loop of
`ws.onopen`: repeatedly take the head of the queue and transmit it.
Returns the final queue (empty) and transmission list. -/
def flushQueue : List Payload → List Payload → List Payload × List Payload
  | [], sent => ([], sent)
  | p :: q, sent => flushQueue q (sent ++ [p])

/-- `ws.onopen` (useChat.js lines 44 to 54): the socket is now open,
`connected` is set and the outbound queue is flushed in FIFO order. -/
def onOpen (st : ChatState) : ChatState :=
  let (q', sent') := flushQueue st.queue st.transmitted
  { st with ws := some ReadyState.opened, connected := true
            queue := q', transmitted := sent' }

/-- `ws.onerror` (useChat.js lines 76 to 78). -/
def onError (st : ChatState) : ChatState :=
  { st with connected := false }

/-- `ws.onclose` (useChat.js lines 80 to 82); the transport ready state
is `CLOSED` once the close event fires. -/
def onClose (st : ChatState) : ChatState :=
  { st with connected := false, ws := some ReadyState.closed }

/-- A parsed inbound frame as far as the `useChat` handler inspects it:
either `JSON.parse` threw (`malformed`), or it produced a value whose
`type`, `characterId`, `content` and `timestamp` properties are the given
string-or-undefined values. -/
inductive RawFrame
  | malformed
  | obj (type_ : Option String) (characterId : Option String)
        (content : Option String) (timestamp : Option String)
deriving DecidableEq, Repr

/-- The `type` property of a raw frame, when one was parsed. -/
def rawType : RawFrame → Option String
  | .malformed => none
  | .obj t _ _ _ => t

/-- `ws.onmessage` (useChat.js lines 56 to 74).  Only
`character_response` frames mutate state; every other parsed frame and
every malformed frame is ignored.  `now` models `Date.now()` and `nowIso`
the fallback `new Date().toISOString()`. -/
def onMessage (st : ChatState) (raw : RawFrame) (now : Nat) (nowIso : String) : ChatState :=
  match raw with
  | .malformed => st
  | .obj t cid content ts =>
    if t = some "character_response" then
      let assistantMessage : Message :=
        { id := now, role := "assistant", characterId := cid
          content := content, timestamp := jsOrString ts nowIso }
      { st with
        messages := st.messages ++ [assistantMessage]
        isTyping := setFlag st.isTyping (jsKey cid) false }
    else st

/-! ## Event-sequence semantics

The browser delivers WebSocket callbacks and `sendMessage` calls on one
event loop; a run of the hook is a sequence of such events applied in
order. -/

/-- One event observed by a `useChat` instance. -/
inductive ChatEvent
  | send (content : Option String) (now : Nat) (nowIso : String)
  | wsOpen
  | wsError
  | wsClose
  | recv (raw : RawFrame) (now : Nat) (nowIso : String)
deriving DecidableEq, Repr

/-- Apply one event to the hook state. -/
def step (chars : List Character) (st : ChatState) (e : ChatEvent) : ChatState :=
  match e with
  | .send content now nowIso => (sendMessage chars st content now nowIso).1
  | .wsOpen => onOpen st
  | .wsError => onError st
  | .wsClose => onClose st
  | .recv raw now nowIso => onMessage st raw now nowIso

/-- Apply a sequence of events in order. -/
def run (chars : List Character) (st : ChatState) (es : List ChatEvent) : ChatState :=
  es.foldl (step chars) st

/-- A `sendMessage` call described by its arguments. -/
abbrev SendInput := Option String × Nat × String

/-- The events of a list of `sendMessage` calls. -/
def sendEvents (xs : List SendInput) : List ChatEvent :=
  xs.map (fun i => ChatEvent.send i.1 i.2.1 i.2.2)

/-- The nonblank trimmed texts of a list of `sendMessage` calls: exactly
the calls that produce a payload, in call order. -/
def sentTexts (xs : List SendInput) : List String :=
  (xs.map (fun i => jsTrim (i.1.getD ""))).filter (fun t => t != "")

/-! ## GroupConversation.jsx message handler

The component keeps its own `messages` and `isTyping` state and handles
`character_response` and `typing_indicator` frames.  The
`simultaneous_responses` appends are scheduled through `setTimeout` and
run as later timer tasks; they only append messages and never write
`isTyping`, so they are outside the synchronous handler effect modelled
here. -/

/-- One entry of the GroupConversation `messages` state.  `interruption`
holds the truthiness of `data.interruption`. -/
structure GCMessage where
  id : Nat
  speaker : Option String
  content : Option String
  timestamp : Option String
  is_user : Bool
  style : Option String
  interruption : Bool
deriving DecidableEq, Repr

/-- A parsed inbound group frame as far as the handler inspects it:
`type`, `character_id`, `content`, `timestamp`, `style` properties and
the truthiness of `interruption` and `is_typing`. -/
structure GCFrame where
  type_ : Option String
  character_id : Option String
  content : Option String
  timestamp : Option String
  style : Option String
  interruption : Bool
  is_typing : Bool
deriving DecidableEq, Repr

/-- The GroupConversation state touched by its `ws.onmessage`. -/
structure GCState where
  messages : List GCMessage
  isTyping : TypingMap
deriving DecidableEq, Repr

/-- `ws.onmessage` of GroupConversation.jsx (lines 17 to 56): two
sequential `if` statements on `data.type`.  A `character_response`
appends one message (speaker, content, timestamp, style, interruption
copied from the frame, `is_user` false, id from `Date.now()`); a
`typing_indicator` writes `isTyping[data.character_id] = data.is_typing`
by object spread. -/
def gcOnMessage (st : GCState) (f : GCFrame) (now : Nat) : GCState :=
  let st1 :=
    if f.type_ = some "character_response" then
      { st with messages := st.messages ++
          [{ id := now, speaker := f.character_id, content := f.content
             timestamp := f.timestamp, is_user := false
             style := f.style, interruption := f.interruption }] }
    else st
  if f.type_ = some "typing_indicator" then
    { st1 with isTyping := setFlag st1.isTyping (jsKey f.character_id) f.is_typing }
  else st1

/-! ## Memory hook and memoryAPI layer

`useCharacterMemory` (useCharacterMemory.js) keeps `memories`,
`relationship` and `isLoading` state; `loadMemoryData` awaits
`memoryAPI.getMemories` and `memoryAPI.getRelationship` and stores both
results.  The `memoryAPI` functions (services/api.js) catch every fetch
or HTTP failure themselves and resolve with `[]` respectively `null`, so
the `catch` inside `loadMemoryData` is unreachable for these two calls.
Numeric record fields are modelled as exact rationals. -/

/-- A cached memory record as held in the `memories` state. -/
structure Memory where
  id : Nat
  content : String
deriving DecidableEq, Repr

/-- The relationship record fields the hook reads
(`relationship_phase`, `shared_experiences`). -/
structure Relationship where
  relationship_phase : String
  shared_experiences : ℚ
deriving DecidableEq, Repr

/-- Result of one raw backend fetch: an HTTP-ok JSON body, or any
network or non-ok-status failure. -/
inductive FetchOutcome (α : Type)
  | success (v : α)
  | failure
deriving DecidableEq, Repr

/-- `memoryAPI.getMemories` (api.js lines 118 to 133): a non-ok response
throws, the `catch` logs and resolves with the empty array. -/
def memoryAPI.getMemories (raw : FetchOutcome (List Memory)) : List Memory :=
  match raw with
  | .success v => v
  | .failure => []

/-- `memoryAPI.getRelationship` (api.js lines 136 to 151): a non-ok
response throws, the `catch` logs and resolves with `null`. -/
def memoryAPI.getRelationship (raw : FetchOutcome Relationship) : Option Relationship :=
  match raw with
  | .success v => some v
  | .failure => none

/-- The `useCharacterMemory` state written by `loadMemoryData`. -/
structure MemoryState where
  memories : List Memory
  relationship : Option Relationship
  isLoading : Bool
deriving DecidableEq, Repr

/-- `loadMemoryData` (useCharacterMemory.js lines 12 to 29), observed at
the resolution of its promise chain: when memory is disabled it returns
early; otherwise it stores whatever the two API calls resolved with and
finally clears `isLoading`.  The API calls never reject, so the `catch`
branch is dead for them. -/
def loadMemoryData (st : MemoryState) (memoryEnabled : Bool)
    (memRaw : FetchOutcome (List Memory)) (relRaw : FetchOutcome Relationship) :
    MemoryState :=
  if !memoryEnabled then st
  else
    { st with
      memories := memoryAPI.getMemories memRaw
      relationship := memoryAPI.getRelationship relRaw
      isLoading := false }

/-- One issued `loadMemoryData` call (for example from the mount effect
or a 30-second interval tick), tagged with its issue index and the data
the backend will answer with. -/
structure FetchInstance where
  issueIndex : Nat
  memRaw : FetchOutcome (List Memory)
  relRaw : FetchOutcome Relationship
deriving DecidableEq, Repr

/-- Apply fetch completions to the hook state in the order their
promises resolve; the hook applies each result unconditionally (memory
stays enabled throughout). -/
def applyResolutions (st : MemoryState) (resolutions : List FetchInstance) : MemoryState :=
  resolutions.foldl (fun s f => loadMemoryData s true f.memRaw f.relRaw) st

/-- `getRelationshipProgress` (useCharacterMemory.js lines 70 to 76):
`Math.min((interactions / maxInteractions) * 100, 100)` with
`maxInteractions = 100`, and `0` when no relationship is cached. -/
def getRelationshipProgress (relationship : Option Relationship) : ℚ :=
  match relationship with
  | none => 0
  | some r => min ((r.shared_experiences / 100) * 100) 100

/-- Modelled from the spec: the display formula
`progress = min(sharedExperiences / 100, 1) * 100` of section 4.5, used
to compare the code derivation against the specified one. -/
def specProgress (sharedExperiences : ℚ) : ℚ :=
  min (sharedExperiences / 100) 1 * 100

/-! ## Helper lemmas -/

/-- Lookup in a cons cell of a typing map. -/
theorem getFlag_cons (k' : String) (v' : Bool) (rest : TypingMap) (k : String) :
    getFlag ((k', v') :: rest) k = if k' == k then v' else getFlag rest k := by
  simp only [getFlag, List.find?]
  cases h : k' == k <;> simp [h]

/-- Writing a key by object spread makes its lookup return the written
value. -/
theorem getFlag_setFlag_self (m : TypingMap) (k : String) (v : Bool) :
    getFlag (setFlag m k v) k = v := by
  induction m with
  | nil => simp [setFlag, getFlag_cons]
  | cons p rest ih =>
    obtain ⟨k', v'⟩ := p
    by_cases h : (k' == k) = true
    · simp [setFlag, h, getFlag_cons]
    · simp only [setFlag]
      rw [if_neg h, getFlag_cons, if_neg h]
      exact ih

/-- `find?` skips a prefix on which the predicate is false everywhere. -/
theorem find?_append_of_false {α : Type} (p : α → Bool) (l₁ l₂ : List α)
    (h : ∀ x ∈ l₁, p x = false) : (l₁ ++ l₂).find? p = l₂.find? p := by
  induction l₁ with
  | nil => rfl
  | cons a l ih =>
    have ha := h a (by simp)
    simp only [List.cons_append, List.find?, ha]
    exact ih (fun x hx => h x (by simp [hx]))

/-- `find?` is `none` when the predicate is false everywhere. -/
theorem find?_eq_none_of_false {α : Type} (p : α → Bool) (l : List α)
    (h : ∀ x ∈ l, p x = false) : l.find? p = none :=
  List.find?_eq_none.mpr (fun x hx => by simp [h x hx])

/-- Trimming a string of whitespace characters yields the empty
string. -/
theorem jsTrim_eq_empty (s : String) (h : ∀ c ∈ s.toList, jsWhitespace c = true) :
    jsTrim s = "" := by
  unfold jsTrim
  have h1 : s.toList.dropWhile jsWhitespace = [] :=
    List.dropWhile_eq_nil_iff.mpr (fun x hx => by simp [h x hx])
  rw [h1]
  rfl

/-- The `onopen` flush loop empties the queue onto the transmission list
in FIFO order. -/
theorem flushQueue_spec (q sent : List Payload) :
    flushQueue q sent = ([], sent ++ q) := by
  induction q generalizing sent with
  | nil => simp [flushQueue]
  | cons p q ih => simp [flushQueue, ih]

/-- Field-level description of `onOpen`. -/
theorem onOpen_spec (st : ChatState) :
    onOpen st = { st with ws := some ReadyState.opened, connected := true
                          queue := [], transmitted := st.transmitted ++ st.queue } := by
  simp [onOpen, flushQueue_spec]

/-- `sentTexts` distributes over cons. -/
theorem sentTexts_cons (i : SendInput) (xs : List SendInput) :
    sentTexts (i :: xs) = sentTexts [i] ++ sentTexts xs := by
  simp only [sentTexts, List.map, List.filter]
  cases h : (jsTrim (i.1.getD "") != "") <;> simp [h]

/-- A blank `sendMessage` call leaves the state unchanged. -/
theorem sendMessage_blank (chars : List Character) (st : ChatState)
    (content : Option String) (now : Nat) (nowIso : String)
    (ht : jsTrim (content.getD "") = "") :
    sendMessage chars st content now nowIso = (st, SendOutcome.noop) := by
  simp [sendMessage, ht]

/-- A nonblank `sendMessage` call while the socket is not open appends
the user message, sets all typing flags and queues the payload. -/
theorem sendMessage_notOpen (chars : List Character) (st : ChatState)
    (content : Option String) (now : Nat) (nowIso : String)
    (ht : jsTrim (content.getD "") ≠ "")
    (hws : st.ws ≠ some ReadyState.opened) :
    sendMessage chars st content now nowIso =
      ({ st with
          messages := st.messages ++
            [{ id := now, role := "user", characterId := none
               content := some (jsTrim (content.getD "")), timestamp := nowIso }]
          isTyping := chars.foldl (fun (m : TypingMap) (c : Character) => setFlag m c.id true) []
          queue := st.queue ++ [mkPayload (jsTrim (content.getD "")) chars st.messages] },
        SendOutcome.queued) := by
  simp [sendMessage, ht, hws]

/-- A nonblank `sendMessage` call while the socket is open appends the
user message, sets all typing flags and transmits the payload. -/
theorem sendMessage_opened (chars : List Character) (st : ChatState)
    (content : Option String) (now : Nat) (nowIso : String)
    (ht : jsTrim (content.getD "") ≠ "")
    (hws : st.ws = some ReadyState.opened) :
    sendMessage chars st content now nowIso =
      ({ st with
          messages := st.messages ++
            [{ id := now, role := "user", characterId := none
               content := some (jsTrim (content.getD "")), timestamp := nowIso }]
          isTyping := chars.foldl (fun (m : TypingMap) (c : Character) => setFlag m c.id true) []
          transmitted := st.transmitted ++ [mkPayload (jsTrim (content.getD "")) chars st.messages] },
        SendOutcome.sent) := by
  simp [sendMessage, ht, hws]

/-- One `send` event while the socket is not open: the ready state and
the transmission list are untouched and the queued message texts grow by
the nonblank text of the call. -/
theorem step_send_notOpen (chars : List Character) (st : ChatState) (i : SendInput)
    (hws : st.ws ≠ some ReadyState.opened) :
    (step chars st (ChatEvent.send i.1 i.2.1 i.2.2)).ws = st.ws ∧
    (step chars st (ChatEvent.send i.1 i.2.1 i.2.2)).transmitted = st.transmitted ∧
    (step chars st (ChatEvent.send i.1 i.2.1 i.2.2)).queue.map Payload.message
      = st.queue.map Payload.message ++ sentTexts [i] := by
  by_cases ht : jsTrim (i.1.getD "") = ""
  · rw [show step chars st (ChatEvent.send i.1 i.2.1 i.2.2)
        = (sendMessage chars st i.1 i.2.1 i.2.2).1 from rfl,
      sendMessage_blank chars st i.1 i.2.1 i.2.2 ht]
    simp [sentTexts, ht]
  · rw [show step chars st (ChatEvent.send i.1 i.2.1 i.2.2)
        = (sendMessage chars st i.1 i.2.1 i.2.2).1 from rfl,
      sendMessage_notOpen chars st i.1 i.2.1 i.2.2 ht hws]
    simp [sentTexts, ht, mkPayload]

/-- One `send` event while the socket is open: the ready state and the
queue are untouched and the transmitted message texts grow by the
nonblank text of the call. -/
theorem step_send_opened (chars : List Character) (st : ChatState) (i : SendInput)
    (hws : st.ws = some ReadyState.opened) :
    (step chars st (ChatEvent.send i.1 i.2.1 i.2.2)).ws = st.ws ∧
    (step chars st (ChatEvent.send i.1 i.2.1 i.2.2)).queue = st.queue ∧
    (step chars st (ChatEvent.send i.1 i.2.1 i.2.2)).transmitted.map Payload.message
      = st.transmitted.map Payload.message ++ sentTexts [i] := by
  by_cases ht : jsTrim (i.1.getD "") = ""
  · rw [show step chars st (ChatEvent.send i.1 i.2.1 i.2.2)
        = (sendMessage chars st i.1 i.2.1 i.2.2).1 from rfl,
      sendMessage_blank chars st i.1 i.2.1 i.2.2 ht]
    simp [sentTexts, ht]
  · rw [show step chars st (ChatEvent.send i.1 i.2.1 i.2.2)
        = (sendMessage chars st i.1 i.2.1 i.2.2).1 from rfl,
      sendMessage_opened chars st i.1 i.2.1 i.2.2 ht hws]
    simp [sentTexts, ht, mkPayload]

/-- A run of `send` events while the socket is not open transmits
nothing and appends the call texts to the queue in call order. -/
theorem run_sends_notOpen (chars : List Character) (xs : List SendInput) :
    ∀ st : ChatState, st.ws ≠ some ReadyState.opened →
      (run chars st (sendEvents xs)).ws = st.ws ∧
      (run chars st (sendEvents xs)).transmitted = st.transmitted ∧
      (run chars st (sendEvents xs)).queue.map Payload.message
        = st.queue.map Payload.message ++ sentTexts xs := by
  induction xs with
  | nil =>
    intro st _
    simp [run, sendEvents, sentTexts]
  | cons i xs ih =>
    intro st h
    have hstep := step_send_notOpen chars st i h
    have hrun : run chars st (sendEvents (i :: xs))
        = run chars (step chars st (ChatEvent.send i.1 i.2.1 i.2.2)) (sendEvents xs) := by
      simp [run, sendEvents]
    have h' : (step chars st (ChatEvent.send i.1 i.2.1 i.2.2)).ws ≠ some ReadyState.opened := by
      rw [hstep.1]; exact h
    have hrest := ih (step chars st (ChatEvent.send i.1 i.2.1 i.2.2)) h'
    refine ⟨?_, ?_, ?_⟩
    · rw [hrun, hrest.1, hstep.1]
    · rw [hrun, hrest.2.1, hstep.2.1]
    · rw [hrun, hrest.2.2, hstep.2.2, sentTexts_cons, List.append_assoc]
      simp only [sentTexts, List.map]
      cases hgt : (jsTrim (i.1.getD "") != "") <;> simp [List.filter_cons, hgt]

/-- A run of `send` events while the socket is open leaves the queue
alone and appends the call texts to the transmission list in call
order. -/
theorem run_sends_opened (chars : List Character) (xs : List SendInput) :
    ∀ st : ChatState, st.ws = some ReadyState.opened →
      (run chars st (sendEvents xs)).ws = st.ws ∧
      (run chars st (sendEvents xs)).queue = st.queue ∧
      (run chars st (sendEvents xs)).transmitted.map Payload.message
        = st.transmitted.map Payload.message ++ sentTexts xs := by
  induction xs with
  | nil =>
    intro st _
    simp [run, sendEvents, sentTexts]
  | cons i xs ih =>
    intro st h
    have hstep := step_send_opened chars st i h
    have hrun : run chars st (sendEvents (i :: xs))
        = run chars (step chars st (ChatEvent.send i.1 i.2.1 i.2.2)) (sendEvents xs) := by
      simp [run, sendEvents]
    have h' : (step chars st (ChatEvent.send i.1 i.2.1 i.2.2)).ws = some ReadyState.opened := by
      rw [hstep.1]; exact h
    have hrest := ih (step chars st (ChatEvent.send i.1 i.2.1 i.2.2)) h'
    refine ⟨?_, ?_, ?_⟩
    · rw [hrun, hrest.1, hstep.1]
    · rw [hrun, hrest.2.1, hstep.2.1]
    · rw [hrun, hrest.2.2, hstep.2.2, sentTexts_cons, List.append_assoc]
      simp only [sentTexts, List.map]
      cases hgt : (jsTrim (i.1.getD "") != "") <;> simp [List.filter_cons, hgt]

/-! ## Claim theorems -/

/-- Claim C1: for every sequence of `sendMessage` calls issued while the
socket is `Connecting`, the payloads are queued in call order and, on
the transition to open, flushed and transmitted strictly in that FIFO
arrival order; `sendMessage` calls issued after the open transition are
transmitted behind every entry that was already queued.  Transmission
order is observed through the texts of the transmitted payloads. -/
theorem send_fifo_across_open (chars : List Character) (st : ChatState)
    (hws : st.ws = some ReadyState.connecting)
    (hq : st.queue = []) (htr : st.transmitted = [])
    (xs ys : List SendInput) :
    ((run chars st (sendEvents xs ++ ChatEvent.wsOpen :: sendEvents ys)).transmitted).map
        Payload.message
      = sentTexts xs ++ sentTexts ys := by
  have hns : st.ws ≠ some ReadyState.opened := by
    rw [hws]
    intro hc
    exact ReadyState.noConfusion (Option.some.inj hc)
  have h1 := run_sends_notOpen chars xs st hns
  have hsplit : run chars st (sendEvents xs ++ ChatEvent.wsOpen :: sendEvents ys)
      = run chars (onOpen (run chars st (sendEvents xs))) (sendEvents ys) := by
    simp [run, List.foldl_append, step]
  have hopenws : (onOpen (run chars st (sendEvents xs))).ws = some ReadyState.opened := by
    rw [onOpen_spec]
  have h3 := run_sends_opened chars ys (onOpen (run chars st (sendEvents xs))) hopenws
  rw [hsplit, h3.2.2, onOpen_spec]
  simp only [List.map_append]
  rw [h1.2.1, htr, h1.2.2, hq]
  simp

/-- Witness for C1 at a concrete run: two sends while connecting, the
open transition, one further send. -/
theorem send_fifo_across_open_witness :
    ((run [] ⟨[], [], false, [], some ReadyState.connecting, []⟩
        (sendEvents [(some "first", 1, "T1"), (some "second", 2, "T2")] ++
          ChatEvent.wsOpen :: sendEvents [(some "third", 3, "T3")])).transmitted).map
        Payload.message
      = ["first", "second", "third"] := by
  have h := send_fifo_across_open [] ⟨[], [], false, [], some ReadyState.connecting, []⟩
    rfl rfl rfl [(some "first", 1, "T1"), (some "second", 2, "T2")] [(some "third", 3, "T3")]
  exact h.trans (by decide)

/-- Claim C2: `currentSpeaker` returns the configured persona of the
most recent persona-role message when one exists (the lookup of its
`characterId` among the configured personas), the first configured
persona when no persona-role message exists (`none` when no personas are
configured, since `head?` of `[]` is `none`), and it is a deterministic
function of exactly the pair of message list and persona list. -/
theorem currentSpeaker_spec (messages l₁ l₂ : List Message) (m : Message)
    (chars : List Character) :
    (messages = l₁ ++ m :: l₂ → m.role = "assistant" →
      (∀ x ∈ l₂, x.role = "user" ∨ truthyOptStr x.characterId = false) →
      ∀ cid, m.characterId = some cid → cid ≠ "" →
      currentSpeaker messages chars = findChar chars cid) ∧
    ((∀ x ∈ messages, x.role = "user" ∨ truthyOptStr x.characterId = false) →
      currentSpeaker messages chars = chars.head?) ∧
    (∀ messages2 chars2, messages = messages2 → chars = chars2 →
      currentSpeaker messages chars = currentSpeaker messages2 chars2) := by
  refine ⟨?_, ?_, ?_⟩
  · intro hm hrole hl₂ cid hcid hne
    have hfalse : ∀ x ∈ l₂.reverse, isPersonaMsg x = false := by
      intro x hx
      rcases hl₂ x (List.mem_reverse.mp hx) with h | h
      · simp [isPersonaMsg, h]
      · simp [isPersonaMsg, h]
    have hpm : isPersonaMsg m = true := by
      simp [isPersonaMsg, hrole, truthyOptStr, hcid, hne]
    have hrev : messages.reverse = l₂.reverse ++ m :: l₁.reverse := by
      rw [hm]; simp
    unfold currentSpeaker
    rw [hrev, find?_append_of_false _ _ _ hfalse, List.find?_cons_of_pos _ hpm]
    simp [hcid]
  · intro hall
    have hfalse : ∀ x ∈ messages.reverse, isPersonaMsg x = false := by
      intro x hx
      rcases hall x (List.mem_reverse.mp hx) with h | h
      · simp [isPersonaMsg, h]
      · simp [isPersonaMsg, h]
    unfold currentSpeaker
    rw [find?_eq_none_of_false _ _ hfalse]
  · intro messages2 chars2 h1 h2
    rw [h1, h2]

/-- Witness for C2: scenario A (speaker is the persona of the last
assistant message) and the no-persona-message fallback. -/
theorem currentSpeaker_spec_witness :
    currentSpeaker
        [{ id := 1, role := "user", characterId := none, content := some "Hello", timestamp := "T1" },
         { id := 2, role := "assistant", characterId := some "p1", content := some "hi", timestamp := "T2" },
         { id := 3, role := "assistant", characterId := some "p2", content := some "yo", timestamp := "T3" }]
        [{ id := "p1", name := "P1", title := "t", images := [], category := "c", model := "m" },
         { id := "p2", name := "P2", title := "t", images := [], category := "c", model := "m" }]
      = some { id := "p2", name := "P2", title := "t", images := [], category := "c", model := "m" } ∧
    currentSpeaker
        [{ id := 1, role := "user", characterId := none, content := some "Hello", timestamp := "T1" }]
        [{ id := "p1", name := "P1", title := "t", images := [], category := "c", model := "m" },
         { id := "p2", name := "P2", title := "t", images := [], category := "c", model := "m" }]
      = some { id := "p1", name := "P1", title := "t", images := [], category := "c", model := "m" } := by
  constructor
  · have h := (currentSpeaker_spec
      [{ id := 1, role := "user", characterId := none, content := some "Hello", timestamp := "T1" },
       { id := 2, role := "assistant", characterId := some "p1", content := some "hi", timestamp := "T2" },
       { id := 3, role := "assistant", characterId := some "p2", content := some "yo", timestamp := "T3" }]
      [{ id := 1, role := "user", characterId := none, content := some "Hello", timestamp := "T1" },
       { id := 2, role := "assistant", characterId := some "p1", content := some "hi", timestamp := "T2" }]
      []
      { id := 3, role := "assistant", characterId := some "p2", content := some "yo", timestamp := "T3" }
      [{ id := "p1", name := "P1", title := "t", images := [], category := "c", model := "m" },
       { id := "p2", name := "P2", title := "t", images := [], category := "c", model := "m" }]).1
      rfl rfl (by intro x hx; cases hx) "p2" rfl (by decide)
    exact h.trans (by decide)
  · have h := (currentSpeaker_spec
      [{ id := 1, role := "user", characterId := none, content := some "Hello", timestamp := "T1" }]
      [] []
      { id := 0, role := "user", characterId := none, content := none, timestamp := "" }
      [{ id := "p1", name := "P1", title := "t", images := [], category := "c", model := "m" },
       { id := "p2", name := "P2", title := "t", images := [], category := "c", model := "m" }]).2.1
      (by intro x hx; left; cases hx with
        | head => rfl
        | tail _ hx2 => cases hx2)
    exact h.trans (by decide)

/-- Claim C3 (counterexample): a nonblank `sendMessage` call while the
socket ready state is `CLOSED` does not fail with any error: the
payload is appended to the outbound queue. -/
theorem send_closed_queued_counterexample :
    (sendMessage [] ⟨[], [], false, [], some ReadyState.closed, []⟩ (some "hello") 5 "T").2
      = SendOutcome.queued ∧
    (sendMessage [] ⟨[], [], false, [], some ReadyState.closed, []⟩ (some "hello") 5 "T").1.queue
      = [mkPayload "hello" [] []] := by
  constructor
  · decide
  · decide

/-- Claim C3 (amended): a nonblank `sendMessage` call in any state other
than open (Connecting, Closing or Closed alike) appends the payload to
the outbound queue and reports it as queued; no `NotConnected` failure
exists in the code and nothing is dropped. -/
theorem send_notOpen_queued (chars : List Character) (st : ChatState)
    (content : Option String) (now : Nat) (nowIso : String)
    (hws : st.ws ≠ some ReadyState.opened)
    (ht : jsTrim (content.getD "") ≠ "") :
    (sendMessage chars st content now nowIso).2 = SendOutcome.queued ∧
    (sendMessage chars st content now nowIso).1.queue
      = st.queue ++ [mkPayload (jsTrim (content.getD "")) chars st.messages] := by
  rw [sendMessage_notOpen chars st content now nowIso ht hws]
  exact ⟨rfl, rfl⟩

/-- Witness for the amended C3 at a concrete closing-state call. -/
theorem send_notOpen_queued_witness :
    (sendMessage [] ⟨[], [], false, [], some ReadyState.closing, []⟩ (some "hi") 2 "T").1.queue
      = [mkPayload "hi" [] []] := by
  have h := send_notOpen_queued [] ⟨[], [], false, [], some ReadyState.closing, []⟩
    (some "hi") 2 "T" (by decide) (by decide)
  exact h.2.trans (by decide)

/-- Claim C4 (counterexample): in the GroupConversation dispatch, a
`typing_indicator` with `is_typing=true` for persona `p1` sets the flag,
but the subsequent `character_response` for `p1` does not clear it: the
flag is still true afterwards. -/
theorem typing_clear_counterexample :
    getFlag ((gcOnMessage (gcOnMessage ⟨[], []⟩
          ⟨some "typing_indicator", some "p1", none, none, none, false, true⟩ 1)
        ⟨some "character_response", some "p1", some "hi", some "T1", none, false, false⟩ 2).isTyping)
      "p1" = true := by
  decide

/-- Claim C4 (amended): the typing-flag effects split per dispatcher.
In the `useChat` dispatch a `typing_indicator` frame is ignored entirely
(state unchanged), while a `character_response` frame for persona `cid`
clears `typing[cid]`.  In the GroupConversation dispatch a
`typing_indicator` for `cid` sets `typing[cid]` to its `is_typing` value
(true sets, false clears), while a `character_response` frame leaves the
typing map unchanged. -/
theorem typing_dispatch_split (st : ChatState) (gst : GCState) (cid : String)
    (ocid content ts style : Option String) (intr b : Bool)
    (now : Nat) (nowIso : String) :
    onMessage st (RawFrame.obj (some "typing_indicator") ocid content ts) now nowIso = st ∧
    getFlag (onMessage st (RawFrame.obj (some "character_response") (some cid) content ts)
        now nowIso).isTyping cid = false ∧
    getFlag (gcOnMessage gst
        ⟨some "typing_indicator", some cid, content, ts, style, intr, b⟩ now).isTyping cid = b ∧
    (gcOnMessage gst
        ⟨some "character_response", ocid, content, ts, style, intr, b⟩ now).isTyping
      = gst.isTyping := by
  refine ⟨?_, ?_, ?_, ?_⟩
  · simp [onMessage]
  · simp [onMessage, jsKey, getFlag_setFlag_self]
  · simp [gcOnMessage, jsKey, getFlag_setFlag_self]
  · simp [gcOnMessage]

/-- Claim C5: the `useChat` dispatch of a well-formed
`character_response` frame appends exactly one assistant message
carrying exactly the `characterId`, `content` and `timestamp` supplied
in the frame, clears the typing flag of that persona, and touches
nothing else in the state. -/
theorem character_response_dispatch (st : ChatState) (cid c ts : String)
    (now : Nat) (nowIso : String) (hts : ts ≠ "") :
    onMessage st (RawFrame.obj (some "character_response") (some cid) (some c) (some ts))
        now nowIso
      = { st with
          messages := st.messages ++
            [{ id := now, role := "assistant", characterId := some cid
               content := some c, timestamp := ts }]
          isTyping := setFlag st.isTyping cid false } ∧
    getFlag (onMessage st
        (RawFrame.obj (some "character_response") (some cid) (some c) (some ts))
        now nowIso).isTyping cid = false := by
  have hts' : (ts == "") = false := by
    simp [hts]
  constructor
  · simp [onMessage, jsOrString, jsKey, hts']
  · simp [onMessage, jsKey, getFlag_setFlag_self]

/-- Witness for C5 at a concrete frame and state. -/
theorem character_response_dispatch_witness :
    onMessage ⟨[], [("p1", true)], true, [], some ReadyState.opened, []⟩
        (RawFrame.obj (some "character_response") (some "p1") (some "hi") (some "T9")) 7 "T0"
      = ⟨[{ id := 7, role := "assistant", characterId := some "p1"
            content := some "hi", timestamp := "T9" }],
         [("p1", false)], true, [], some ReadyState.opened, []⟩ := by
  have h := character_response_dispatch
    ⟨[], [("p1", true)], true, [], some ReadyState.opened, []⟩ "p1" "hi" "T9" 7 "T0"
    (by decide)
  exact h.1.trans (by decide)

/-- The discriminating `type` values of the wire protocol (section 6 of
the specification). -/
def knownFrameTypes : List String :=
  ["character_response", "voice_data", "typing_indicator", "error"]

/-- Claim C6: a malformed inbound frame, or one whose `type` is not a
recognized protocol type, leaves the whole `useChat` state unchanged:
same message log, same typing map, and the connection fields are
untouched (the handler never closes the socket). -/
theorem unknown_frame_inert (st : ChatState) (raw : RawFrame) (now : Nat) (nowIso : String)
    (h : raw = RawFrame.malformed ∨ ∀ t, rawType raw = some t → t ∉ knownFrameTypes) :
    onMessage st raw now nowIso = st := by
  cases raw with
  | malformed => rfl
  | obj t cid content ts =>
    rcases h with h | h
    · cases h
    · have ht : t ≠ some "character_response" := by
        intro he
        have hmem := h "character_response" (by rw [rawType, he])
        simp [knownFrameTypes] at hmem
      simp [onMessage, ht]

/-- Witness for C6 at a concrete unrecognized frame. -/
theorem unknown_frame_inert_witness :
    onMessage ⟨[], [("p1", true)], true, [], some ReadyState.opened, []⟩
        (RawFrame.obj (some "avatar_prompt") (some "p1") (some "x") none) 3 "T"
      = ⟨[], [("p1", true)], true, [], some ReadyState.opened, []⟩ :=
  unknown_frame_inert ⟨[], [("p1", true)], true, [], some ReadyState.opened, []⟩
    (RawFrame.obj (some "avatar_prompt") (some "p1") (some "x") none) 3 "T"
    (Or.inr (fun t ht => by
      injection ht with ht2
      subst ht2
      decide))

/-- Claim C7 (counterexample): two refresh fetches are issued, the later
issued fetch (issue index 2) resolves first and the superseded fetch
(issue index 1) resolves second; the hook state then holds the data of
the superseded fetch, not the data of the highest-issue-order fetch. -/
theorem stale_fetch_overwrites_counterexample :
    (applyResolutions ⟨[], none, false⟩
        [⟨2, FetchOutcome.success [⟨2, "newer"⟩], FetchOutcome.failure⟩,
         ⟨1, FetchOutcome.success [⟨1, "older"⟩], FetchOutcome.failure⟩]).memories
      = [⟨1, "older"⟩] ∧
    ([(⟨1, "older"⟩ : Memory)] : List Memory) ≠ [⟨2, "newer"⟩] := by
  constructor
  · decide
  · decide

/-- Claim C7 (amended): the hook has no issue counter and applies every
resolved fetch unconditionally, so after any nonempty sequence of
resolutions the state holds exactly the data of the last fetch to
resolve, whatever its issue order. -/
theorem memory_refresh_last_resolve_wins (st : MemoryState)
    (rs : List FetchInstance) (f : FetchInstance) :
    (applyResolutions st (rs ++ [f])).memories = memoryAPI.getMemories f.memRaw ∧
    (applyResolutions st (rs ++ [f])).relationship = memoryAPI.getRelationship f.relRaw ∧
    (applyResolutions st (rs ++ [f])).isLoading = false := by
  have h : applyResolutions st (rs ++ [f])
      = loadMemoryData (applyResolutions st rs) true f.memRaw f.relRaw := by
    simp [applyResolutions, List.foldl_append]
  rw [h]
  refine ⟨?_, ?_, ?_⟩ <;> simp [loadMemoryData]

/-- Claim C8 (counterexample): with a cached memory list and
relationship present, a failed refresh (both fetches fail) does not
retain them: the memories are replaced by the empty list and the
relationship by `null`. -/
theorem memory_fetch_failure_counterexample :
    (loadMemoryData ⟨[⟨1, "cached"⟩], some ⟨"friend", 40⟩, false⟩ true
        FetchOutcome.failure FetchOutcome.failure).memories = [] ∧
    (loadMemoryData ⟨[⟨1, "cached"⟩], some ⟨"friend", 40⟩, false⟩ true
        FetchOutcome.failure FetchOutcome.failure).relationship = none ∧
    ([(⟨1, "cached"⟩ : Memory)] : List Memory) ≠ [] := by
  refine ⟨rfl, rfl, by decide⟩

/-- Claim C8 (amended): a failed fetch is silent (the `memoryAPI` layer
catches the error itself) but the state is replaced, not retained: a
failed relationship fetch stores `null` and a failed memory fetch
stores the empty list, whatever was cached before. -/
theorem memory_fetch_failure_clears (st : MemoryState)
    (memRaw : FetchOutcome (List Memory)) (relRaw : FetchOutcome Relationship) :
    (loadMemoryData st true memRaw (FetchOutcome.failure : FetchOutcome Relationship)).relationship
      = none ∧
    (loadMemoryData st true (FetchOutcome.failure : FetchOutcome (List Memory)) relRaw).memories
      = [] := by
  constructor <;>
    simp [loadMemoryData, memoryAPI.getMemories, memoryAPI.getRelationship]

/-- Claim C9: the client-side progress derivation equals the specified
`min(sharedExperiences / 100, 1) * 100`; at 55 shared experiences the
progress is 55, at 150 it clamps to 100, and the progress never exceeds
100. -/
theorem relationship_progress_spec (r : Relationship) (rel : Option Relationship) :
    getRelationshipProgress (some r) = specProgress r.shared_experiences ∧
    getRelationshipProgress (some ⟨"friend", 55⟩) = 55 ∧
    getRelationshipProgress (some ⟨"friend", 150⟩) = 100 ∧
    getRelationshipProgress rel ≤ 100 := by
  have key : ∀ se : ℚ, min ((se / 100) * 100) 100 = min (se / 100) 1 * 100 := by
    intro se
    rw [min_mul_of_nonneg _ _ (by norm_num : (0:ℚ) ≤ 100), one_mul]
  refine ⟨?_, ?_, ?_, ?_⟩
  · simp only [getRelationshipProgress, specProgress]
    exact key r.shared_experiences
  · simp only [getRelationshipProgress]
    norm_num [min_def]
  · simp only [getRelationshipProgress]
    norm_num [min_def]
  · cases rel with
    | none =>
      simp [getRelationshipProgress]
    | some r2 =>
      exact min_le_right ((r2.shared_experiences / 100) * 100) 100

/-- Claim C10: a `sendMessage` call whose input is empty or consists
only of whitespace is a no-op: the state (message log, typing map,
queue, socket, transmissions) is returned unchanged and nothing is sent
or queued. -/
theorem sendMessage_blank_noop (chars : List Character) (st : ChatState)
    (s : String) (now : Nat) (nowIso : String)
    (h : ∀ c ∈ s.toList, jsWhitespace c = true) :
    sendMessage chars st (some s) now nowIso = (st, SendOutcome.noop) := by
  have ht : jsTrim ((some s : Option String).getD "") = "" := by
    simpa using jsTrim_eq_empty s h
  exact sendMessage_blank chars st (some s) now nowIso ht

/-- Witness for C10 at a concrete whitespace-only input. -/
theorem sendMessage_blank_noop_witness :
    sendMessage [] ⟨[], [], false, [], some ReadyState.connecting, []⟩ (some "  \t\n ") 9 "T"
      = (⟨[], [], false, [], some ReadyState.connecting, []⟩, SendOutcome.noop) :=
  sendMessage_blank_noop [] ⟨[], [], false, [], some ReadyState.connecting, []⟩
    "  \t\n " 9 "T" (by decide)

end TotalChat
